import Mathlib

/-!
The conditional declaration gate of include/system.h.

`include/system.h` consists of preprocessor directives and two function
prototypes.  It is embedded here as a syntax tree of its lines (`system_h`)
together with an interpreter (`process`) for the directives that occur in it:
`#ifndef`, `#if` over `defined`, `!` and `&&`, `#define`, `#include <...>`
and a line of ordinary text, every identifier of which is subject to
replacement with rescanning.

The preprocessor state is the table of defined names plus the text produced so
far.  The contents of `<stdlib.h>` and `<unistd.h>` belong to the host
platform, not to this repository; they enter as a parameter `sys` giving the
effect of each platform header on the table of defined names.
-/

namespace SystemH

/-! ## Data model -/

/-- Preprocessing tokens: identifiers (keywords included, the preprocessor
does not tell them apart), which are subject to replacement, and all other
tokens (punctuators, numbers), which are not. -/
inductive Tok where
  | ident (s : String)
  | other (s : String)
  deriving DecidableEq

/-- Table of the names defined without parameters (as `-DNAME`, `-DNAME=text`
and the `#define` lines of system.h define them), each with its replacement
list; the most recent definition of a name comes first. -/
abbrev Env := List (String × List Tok)

/-- Replacement list of `n`, or `none` when `n` is not defined. -/
def lookupDef (env : Env) (n : String) : Option (List Tok) :=
  List.lookup n env

/-- The preprocessor operator `defined(n)`. -/
def isDefined (env : Env) (n : String) : Bool :=
  (lookupDef env n).isSome

/-- The directive `#define n v`: the new definition is the one in force from
here on (compilers diagnose an incompatible redefinition and go on with the
new text). -/
def define (n : String) (v : List Tok) (env : Env) : Env :=
  (n, v) :: env

/-- The table without any definition of `n`: while the replacement list of
`n` is rescanned, `n` itself is not available for replacement. -/
def hide (n : String) (env : Env) : Env :=
  env.filter (fun p => p.1 != n)

/-- Replacement of one token.  A defined identifier is replaced by its
replacement list, which is rescanned with that identifier hidden.  Every
replacement hides one more defined name, so a budget equal to the length of
the table is never used up (`expandTok_budget`). -/
def expandTok : Nat → Env → Tok → List Tok
  | _, _, .other s => [.other s]
  | 0, _, .ident n => [.ident n]
  | budget + 1, env, .ident n =>
      match lookupDef env n with
      | none => [.ident n]
      | some repl => repl.flatMap (expandTok budget (hide n env))

/-- Replacement applied to a line of text. -/
def expandLine (env : Env) (toks : List Tok) : List Tok :=
  toks.flatMap (expandTok env.length env)

/-- Controlling expressions of `#if`, as far as system.h uses them. -/
inductive Cond where
  | defined (n : String)
  | not (c : Cond)
  | and (a b : Cond)

/-- Value of a controlling expression in a table of defined names. -/
def Cond.eval (env : Env) : Cond → Bool
  | .defined n => isDefined env n
  | .not c => !(c.eval env)
  | .and a b => a.eval env && b.eval env

/-- Lines of a header.  Every constructor carries the lines that follow it
(`rest`); a conditional also carries the lines up to its `#endif` (`body`). -/
inductive Src where
  | done
  | ifndefBlock (n : String) (body rest : Src)
  | ifCond (c : Cond) (body rest : Src)
  | define (n : String) (v : List Tok) (rest : Src)
  | includeSys (h : String) (rest : Src)
  | proto (toks : List Tok) (rest : Src)

/-- Pieces of preprocessed text: a prototype line of system.h that was let
through, both as it is written in the header and as it reads after
replacement, or the place where the text of a platform header is spliced in
(that text is not interpreted). -/
inductive Out where
  | decl (written text : List Tok)
  | header (h : String)
  deriving DecidableEq

/-- Preprocessor state: defined names and the text produced so far. -/
structure State where
  env : Env
  out : List Out

/-- Effect of `#include <h>` on the table of defined names, for each platform
header `h`.  The platform headers are not part of the repository. -/
abbrev SysHeaders := String → Env → Env

/-! ## The interpreter -/

/-- Processing of the lines of a header, top to bottom. -/
def process (sys : SysHeaders) : Src → State → State
  | .done, st => st
  | .ifndefBlock n body rest, st =>
      process sys rest (if isDefined st.env n then st else process sys body st)
  | .ifCond c body rest, st =>
      process sys rest (if c.eval st.env then process sys body st else st)
  | .define n v rest, st =>
      process sys rest ⟨define n v st.env, st.out⟩
  | .includeSys h rest, st =>
      process sys rest ⟨sys h st.env, st.out ++ [Out.header h]⟩
  | .proto toks rest, st =>
      process sys rest ⟨st.env, st.out ++ [Out.decl toks (expandLine st.env toks)]⟩

/-! ## The header -/

/-- Line 18 as written: `E void srand48(long int);`. -/
def srand48Line : List Tok :=
  [.ident "E", .ident "void", .ident "srand48", .other "(", .ident "long", .ident "int",
    .other ")", .other ";"]

/-- Line 23 as written: `E unsigned int sleep(unsigned int);`. -/
def sleepLine : List Tok :=
  [.ident "E", .ident "unsigned", .ident "int", .ident "sleep", .other "(",
    .ident "unsigned", .ident "int", .other ")", .other ";"]

/-- Lines 11 to 24 of system.h: the text controlled by the toolchain test. -/
def gateBody : Src :=
  .define "E" [.ident "extern"]
  (.includeSys "stdlib.h"
  (.includeSys "unistd.h"
  (.ifndefBlock "HAVE_SRAND48" (.proto srand48Line .done)
  (.ifndefBlock "HAVE_SLEEP" (.proto sleepLine .done)
  .done))))

/-- Lines 9 to 26 of system.h: the toolchain test and what it controls. -/
def gate : Src :=
  .ifCond (.and (.not (.defined "__cplusplus")) (.not (.defined "__GO32__")))
    gateBody .done

/-- The whole of system.h: the include guard around the gate. -/
def system_h : Src :=
  .ifndefBlock "SYSTEM_H" (.define "SYSTEM_H" [] gate) .done

/-! ## Observations -/

/-- The prototype lines of system.h that were let through, as written in the
header, in order. -/
def declsOf : List Out → List (List Tok)
  | [] => []
  | .decl w _ :: rest => w :: declsOf rest
  | .header _ :: rest => declsOf rest

/-- The prototype lines that were let through as they read after replacement,
in order: the declarations the compiler proper gets to see. -/
def textOf : List Out → List (List Tok)
  | [] => []
  | .decl _ t :: rest => t :: textOf rest
  | .header _ :: rest => textOf rest

/-- State of a translation unit after `#include "system.h"` in state `st`. -/
def includeSystemH (sys : SysHeaders) (st : State) : State :=
  process sys system_h st

/-- The prototype lines that system.h lets through when it is processed with
the defined names `env`: the decision of the gate. -/
def emitted (sys : SysHeaders) (env : Env) : List (List Tok) :=
  declsOf (includeSystemH sys ⟨env, []⟩).out

/-- The declarations that system.h itself puts into the preprocessed text
when it is processed with the defined names `env`. -/
def emittedText (sys : SysHeaders) (env : Env) : List (List Tok) :=
  textOf (includeSystemH sys ⟨env, []⟩).out

/-- The lines among `ls` in which the identifier `name` occurs. -/
def declaring (name : String) (ls : List (List Tok)) : List (List Tok) :=
  ls.filter (fun l => decide (Tok.ident name ∈ l))

/-- The declaration `extern void srand48(long int);`: storage class
`extern`, no result, one parameter of type `long int`. -/
def srand48Text : List Tok :=
  [.ident "extern", .ident "void", .ident "srand48", .other "(", .ident "long",
    .ident "int", .other ")", .other ";"]

/-- The declaration `extern unsigned int sleep(unsigned int);`: storage
class `extern`, result `unsigned int`, one parameter of type `unsigned int`. -/
def sleepText : List Tok :=
  [.ident "extern", .ident "unsigned", .ident "int", .ident "sleep", .other "(",
    .ident "unsigned", .ident "int", .other ")", .other ";"]

/-- Names that system.h itself tests or defines. -/
def usedNames : List String :=
  ["SYSTEM_H", "__cplusplus", "__GO32__", "E", "HAVE_SRAND48", "HAVE_SLEEP"]

/-- The two platform headers that system.h includes leave `n` as they found
it: they neither define nor undefine it. -/
def Keeps (sys : SysHeaders) (n : String) : Prop :=
  ∀ env, lookupDef (sys "stdlib.h" env) n = lookupDef env n
    ∧ lookupDef (sys "unistd.h" env) n = lookupDef env n

/-- The two platform headers that system.h includes leave the names that
system.h tests or defines as they found them. -/
def Hygienic (sys : SysHeaders) : Prop :=
  ∀ n, n ∈ usedNames → Keeps sys n

/-- The identifiers of lines 18 and 23 other than E, together with the
replacement of E. -/
def protoNames : List String :=
  ["extern", "void", "srand48", "long", "int", "unsigned", "sleep"]

/-- None of the identifiers of the two prototype lines is defined in `env`. -/
def plainProto (env : Env) : Bool :=
  protoNames.all (fun n => !isDefined env n)

/-- The two platform headers that system.h includes leave the identifiers of
the two prototype lines as they found them. -/
def KeepsProto (sys : SysHeaders) : Prop :=
  ∀ n, n ∈ protoNames → Keeps sys n

/-- A small platform: `<stdlib.h>` defines its two exit codes and
`<unistd.h>` the number of the standard input descriptor. -/
def hostLibc : SysHeaders := fun h env =>
  if h = "stdlib.h" then
    define "EXIT_FAILURE" [.other "1"] (define "EXIT_SUCCESS" [.other "0"] env)
  else if h = "unistd.h" then define "STDIN_FILENO" [.other "0"] env
  else env

/-- The table of defined names at line 16, where the availability tests
start, when the gate body is entered with the names `env`. -/
def envAtTests (sys : SysHeaders) (env : Env) : Env :=
  sys "unistd.h" (sys "stdlib.h" (define "E" [.ident "extern"] env))

/-- What the availability test for one prototype line contributes. -/
def guarded (env : Env) (flag : String) (line : List Tok) : List Out :=
  if isDefined env flag then [] else [Out.decl line (expandLine env line)]

/-- The toolchain test of line 9 fails: one of the two names is defined. -/
def blocked (env : Env) : Bool :=
  isDefined env "__cplusplus" || isDefined env "__GO32__"

/-- What the gate body produces when its availability tests are reached with
the names `env`. -/
def bodyOut (env : Env) : List Out :=
  [Out.header "stdlib.h", Out.header "unistd.h"]
    ++ guarded env "HAVE_SRAND48" srand48Line
    ++ guarded env "HAVE_SLEEP" sleepLine

/-- The lines that the two availability tests let through. -/
def gateLines (env : Env) : List (List Tok) :=
  (if isDefined env "HAVE_SRAND48" then [] else [srand48Line])
    ++ (if isDefined env "HAVE_SLEEP" then [] else [sleepLine])

/-- The declarations that the two availability tests let through, when no
identifier of the prototype lines is redefined. -/
def gateTexts (env : Env) : List (List Tok) :=
  (if isDefined env "HAVE_SRAND48" then [] else [srand48Text])
    ++ (if isDefined env "HAVE_SLEEP" then [] else [sleepText])

/-- Names whose definedness decides which lines system.h lets through. -/
def inputNames : List String :=
  ["SYSTEM_H", "__cplusplus", "__GO32__", "HAVE_SRAND48", "HAVE_SLEEP"]

/-- The configuration names: the two toolchain names and the two
availability flags. -/
def configNames : List String :=
  ["__cplusplus", "__GO32__", "HAVE_SRAND48", "HAVE_SLEEP"]

theorem lookupDef_define (n : String) (v : List Tok) (env : Env) (m : String) :
    lookupDef (define n v env) m = if m = n then some v else lookupDef env m := by
  unfold lookupDef define
  by_cases h : m = n
  · subst h; simp [List.lookup]
  · have : (m == n) = false := by simpa using h
    simp [List.lookup, this, h]

theorem isDefined_define (n : String) (v : List Tok) (env : Env) (m : String) :
    isDefined (define n v env) m = if m = n then true else isDefined env m := by
  unfold isDefined
  rw [lookupDef_define]
  split <;> simp

theorem lookupDef_hide_ne (n m : String) (env : Env) (h : m ≠ n) :
    lookupDef (hide n env) m = lookupDef env m := by
  unfold lookupDef hide
  induction env with
  | nil => rfl
  | cons p env ih =>
    obtain ⟨k, v⟩ := p
    by_cases hk : k = n
    · subst hk
      have hm : (m == k) = false := by simpa using h
      simp [List.filter, List.lookup, hm, ih]
    · have hk2 : (k != n) = true := by simpa using hk
      simp only [List.filter, hk2, List.lookup]
      rw [ih]

theorem length_hide_lt (n : String) (env : Env) (h : isDefined env n = true) :
    (hide n env).length < env.length := by
  unfold isDefined lookupDef at h
  unfold hide
  induction env with
  | nil => simp [List.lookup] at h
  | cons p env ih =>
    obtain ⟨k, v⟩ := p
    by_cases hk : k = n
    · subst hk
      have := List.length_filter_le (fun p : String × List Tok => p.1 != k) env
      simp [List.filter]
      omega
    · have hk2 : (k != n) = true := by simpa using hk
      have hk3 : (n == k) = false := by simpa using fun e : n = k => hk e.symm
      simp only [List.lookup, hk3] at h
      have := ih h
      simp only [List.filter, hk2, List.length_cons]
      omega

theorem expandTok_undefined (budget : Nat) (env : Env) (n : String)
    (h : lookupDef env n = none) : expandTok budget env (.ident n) = [.ident n] := by
  cases budget with
  | zero => rfl
  | succ b => simp [expandTok, h]

theorem flatMap_congr_all {α β : Type} (l : List α) (f g : α → List β)
    (h : ∀ a, f a = g a) : l.flatMap f = l.flatMap g := by
  have : f = g := funext h
  rw [this]

theorem expandTok_budget (b₁ b₂ : Nat) (env : Env) (t : Tok)
    (h₁ : env.length ≤ b₁) (h₂ : env.length ≤ b₂) :
    expandTok b₁ env t = expandTok b₂ env t := by
  induction b₁ generalizing b₂ env t with
  | zero =>
    have he : env = [] := List.length_eq_zero.mp (Nat.le_zero.mp h₁)
    subst he
    cases t with
    | other s => cases b₂ <;> rfl
    | ident n => exact (expandTok_undefined b₂ [] n rfl).symm
  | succ k ih =>
    cases t with
    | other s => cases b₂ <;> rfl
    | ident n =>
      cases hl : lookupDef env n with
      | none => rw [expandTok_undefined _ _ _ hl, expandTok_undefined _ _ _ hl]
      | some repl =>
        have hd : isDefined env n = true := by simp [isDefined, hl]
        have hlt := length_hide_lt n env hd
        cases b₂ with
        | zero => omega
        | succ j =>
          simp only [expandTok, hl]
          exact flatMap_congr_all _ _ _
            (fun a => ih j (hide n env) a (by omega) (by omega))

theorem expandTok_other (budget : Nat) (env : Env) (s : String) :
    expandTok budget env (.other s) = [.other s] := by
  cases budget <;> rfl

theorem expandTok_E (env : Env) (hE : lookupDef env "E" = some [.ident "extern"])
    (hx : lookupDef env "extern" = none) :
    expandTok env.length env (.ident "E") = [.ident "extern"] := by
  cases env with
  | nil => simp [lookupDef, List.lookup] at hE
  | cons p env =>
    have hh : lookupDef (hide "E" (p :: env)) "extern" = none := by
      rw [lookupDef_hide_ne _ _ _ (by decide)]; exact hx
    simp only [List.length_cons, expandTok, hE, List.flatMap_cons, List.flatMap_nil,
      List.append_nil]
    exact expandTok_undefined _ _ _ hh

theorem plainProto_lookup {env : Env} (h : plainProto env = true) {n : String}
    (hn : n ∈ protoNames) : lookupDef env n = none := by
  unfold plainProto at h
  have := (List.all_eq_true.mp h) n hn
  simpa [isDefined] using this

theorem expandLine_protos (env : Env) (hE : lookupDef env "E" = some [.ident "extern"])
    (hp : ∀ n, n ∈ protoNames → lookupDef env n = none) :
    expandLine env srand48Line = srand48Text ∧ expandLine env sleepLine = sleepText := by
  have hE2 := expandTok_E env hE (hp "extern" (by decide))
  have hu : ∀ n, n ∈ protoNames → expandTok env.length env (.ident n) = [.ident n] :=
    fun n hn => expandTok_undefined _ _ _ (hp n hn)
  constructor
  · simp [expandLine, srand48Line, srand48Text, List.flatMap_cons, hE2, expandTok_other,
      hu "void" (by decide), hu "srand48" (by decide), hu "long" (by decide),
      hu "int" (by decide)]
  · simp [expandLine, sleepLine, sleepText, List.flatMap_cons, hE2, expandTok_other,
      hu "unsigned" (by decide), hu "sleep" (by decide), hu "int" (by decide)]

theorem process_gateBody (sys : SysHeaders) (st : State) :
    process sys gateBody st =
      ⟨envAtTests sys st.env, st.out ++ bodyOut (envAtTests sys st.env)⟩ := by
  simp only [gateBody, process, envAtTests, guarded, bodyOut]
  split <;> split <;> simp

theorem process_gate (sys : SysHeaders) (st : State) :
    process sys gate st =
      if isDefined st.env "__cplusplus" || isDefined st.env "__GO32__" then st
      else process sys gateBody st := by
  simp only [gate, process, Cond.eval]
  cases isDefined st.env "__cplusplus" <;> cases isDefined st.env "__GO32__" <;> simp

theorem includeSystemH_eq (sys : SysHeaders) (st : State) :
    includeSystemH sys st =
      if isDefined st.env "SYSTEM_H" then st
      else process sys gate ⟨define "SYSTEM_H" [] st.env, st.out⟩ := by
  simp only [includeSystemH, system_h, process]

theorem blocked_define_guard (env : Env) :
    blocked (define "SYSTEM_H" [] env) = blocked env := by
  simp [blocked, isDefined_define]

theorem env_gateBody (sys : SysHeaders) (st : State) :
    (process sys gateBody st).env = envAtTests sys st.env := by
  rw [process_gateBody]

theorem env_gate (sys : SysHeaders) (st : State) :
    (process sys gate st).env = if blocked st.env then st.env else envAtTests sys st.env := by
  rw [process_gate]
  unfold blocked
  split
  · rfl
  · exact env_gateBody sys st

theorem out_gate (sys : SysHeaders) (st : State) :
    (process sys gate st).out =
      st.out ++ (if blocked st.env then [] else bodyOut (envAtTests sys st.env)) := by
  rw [process_gate]
  unfold blocked
  split
  · simp
  · rw [process_gateBody]

theorem out_includeSystemH (sys : SysHeaders) (st : State) :
    (includeSystemH sys st).out =
      st.out ++ (if isDefined st.env "SYSTEM_H" || blocked st.env then []
        else bodyOut (envAtTests sys (define "SYSTEM_H" [] st.env))) := by
  rw [includeSystemH_eq]
  by_cases h : isDefined st.env "SYSTEM_H" = true
  · simp [h]
  · rw [if_neg h, out_gate]
    simp [blocked_define_guard, h]

theorem env_includeSystemH (sys : SysHeaders) (st : State) :
    (includeSystemH sys st).env =
      if isDefined st.env "SYSTEM_H" then st.env
      else if blocked st.env then define "SYSTEM_H" [] st.env
      else envAtTests sys (define "SYSTEM_H" [] st.env) := by
  rw [includeSystemH_eq]
  by_cases h : isDefined st.env "SYSTEM_H" = true
  · simp [h]
  · rw [if_neg h, if_neg h, env_gate]
    simp only [blocked_define_guard]

theorem declsOf_bodyOut (env : Env) :
    declsOf (bodyOut env) =
      (if isDefined env "HAVE_SRAND48" then [] else [srand48Line])
        ++ (if isDefined env "HAVE_SLEEP" then [] else [sleepLine]) := by
  unfold bodyOut guarded
  split <;> split <;> simp [declsOf]

theorem textOf_bodyOut (env : Env) :
    textOf (bodyOut env) =
      (if isDefined env "HAVE_SRAND48" then [] else [expandLine env srand48Line])
        ++ (if isDefined env "HAVE_SLEEP" then [] else [expandLine env sleepLine]) := by
  unfold bodyOut guarded
  split <;> split <;> simp [textOf]

theorem Hygienic.lookup_envAtTests {sys : SysHeaders} (hs : Hygienic sys) (env : Env)
    {n : String} (hn : n ∈ usedNames) :
    lookupDef (envAtTests sys env) n = lookupDef (define "E" [.ident "extern"] env) n := by
  unfold envAtTests
  rw [(hs n hn _).2, (hs n hn _).1]

theorem Hygienic.isDefined_envAtTests {sys : SysHeaders} (hs : Hygienic sys) (env : Env)
    {n : String} (hn : n ∈ usedNames) (hne : n ≠ "E") :
    isDefined (envAtTests sys env) n = isDefined env n := by
  unfold isDefined
  rw [hs.lookup_envAtTests env hn, lookupDef_define, if_neg hne]

theorem Hygienic.flag_atLines {sys : SysHeaders} (hs : Hygienic sys) (env : Env)
    {n : String} (hn : n ∈ usedNames) (hne : n ≠ "E") (hng : n ≠ "SYSTEM_H") :
    isDefined (envAtTests sys (define "SYSTEM_H" [] env)) n = isDefined env n := by
  rw [hs.isDefined_envAtTests _ hn hne, isDefined_define, if_neg hng]

theorem Hygienic.lookup_E {sys : SysHeaders} (hs : Hygienic sys) (env : Env) :
    lookupDef (envAtTests sys env) "E" = some [.ident "extern"] := by
  rw [hs.lookup_envAtTests env (by decide), lookupDef_define]
  simp

theorem KeepsProto.lookup_atLines {sys : SysHeaders} (hp : KeepsProto sys) (env : Env)
    (hplain : plainProto env = true) {n : String} (hn : n ∈ protoNames) :
    lookupDef (envAtTests sys (define "SYSTEM_H" [] env)) n = none := by
  have h1 : n ≠ "E" := by rintro rfl; revert hn; decide
  have h2 : n ≠ "SYSTEM_H" := by rintro rfl; revert hn; decide
  unfold envAtTests
  rw [(hp n hn _).2, (hp n hn _).1, lookupDef_define, if_neg h1, lookupDef_define,
    if_neg h2]
  exact plainProto_lookup hplain hn

theorem Hygienic.emitted_eq {sys : SysHeaders} (hs : Hygienic sys) (env : Env) :
    emitted sys env =
      if isDefined env "SYSTEM_H" || blocked env then [] else gateLines env := by
  unfold emitted
  rw [out_includeSystemH]
  simp only [List.nil_append]
  split
  · rfl
  · rw [declsOf_bodyOut, hs.flag_atLines env (show "HAVE_SRAND48" ∈ usedNames by decide)
      (by decide) (by decide), hs.flag_atLines env (show "HAVE_SLEEP" ∈ usedNames by decide)
      (by decide) (by decide)]
    rfl

theorem Hygienic.emittedText_eq {sys : SysHeaders} (hs : Hygienic sys)
    (hp : KeepsProto sys) (env : Env) (hplain : plainProto env = true) :
    emittedText sys env =
      if isDefined env "SYSTEM_H" || blocked env then [] else gateTexts env := by
  unfold emittedText
  rw [out_includeSystemH]
  simp only [List.nil_append]
  split
  · rfl
  · have hx := expandLine_protos (envAtTests sys (define "SYSTEM_H" [] env))
      (hs.lookup_E _) (fun n hn => hp.lookup_atLines env hplain hn)
    rw [textOf_bodyOut, hx.1, hx.2,
      hs.flag_atLines env (show "HAVE_SRAND48" ∈ usedNames by decide)
      (by decide) (by decide), hs.flag_atLines env (show "HAVE_SLEEP" ∈ usedNames by decide)
      (by decide) (by decide)]
    rfl

theorem hostLibc_lookup (h : String) (env : Env) (n : String)
    (h1 : n ≠ "EXIT_FAILURE") (h2 : n ≠ "EXIT_SUCCESS") (h3 : n ≠ "STDIN_FILENO") :
    lookupDef (hostLibc h env) n = lookupDef env n := by
  unfold hostLibc
  split
  · simp [lookupDef_define, h1, h2]
  · split
    · simp [lookupDef_define, h3]
    · rfl

theorem hostLibc_keeps (n : String)
    (h1 : n ≠ "EXIT_FAILURE") (h2 : n ≠ "EXIT_SUCCESS") (h3 : n ≠ "STDIN_FILENO") :
    Keeps hostLibc n :=
  fun env => ⟨hostLibc_lookup _ env n h1 h2 h3, hostLibc_lookup _ env n h1 h2 h3⟩

theorem hostLibc_hygienic : Hygienic hostLibc := by
  intro n hn
  apply hostLibc_keeps <;> (rintro rfl; revert hn; decide)

theorem hostLibc_keepsProto : KeepsProto hostLibc := by
  intro n hn
  apply hostLibc_keeps <;> (rintro rfl; revert hn; decide)

theorem includeSystemH_guarded (sys : SysHeaders) (st : State)
    (h : isDefined st.env "SYSTEM_H" = true) : includeSystemH sys st = st := by
  rw [includeSystemH_eq, if_pos h]

theorem guard_defined_of_keeps (sys : SysHeaders) (st : State) (hk : Keeps sys "SYSTEM_H") :
    isDefined (includeSystemH sys st).env "SYSTEM_H" = true := by
  rw [env_includeSystemH]
  by_cases h : isDefined st.env "SYSTEM_H" = true
  · simp [h]
  · rw [if_neg h]
    split
    · simp [isDefined_define]
    · unfold isDefined envAtTests
      rw [(hk _).2, (hk _).1, lookupDef_define, if_neg (by decide), lookupDef_define]
      simp

theorem Hygienic.keeps {sys : SysHeaders} (hs : Hygienic sys) {n : String}
    (hn : n ∈ usedNames) : Keeps sys n :=
  hs n hn

theorem Hygienic.guard_defined {sys : SysHeaders} (hs : Hygienic sys) (st : State) :
    isDefined (includeSystemH sys st).env "SYSTEM_H" = true :=
  guard_defined_of_keeps sys st (hs.keeps (by decide))

theorem Hygienic.include_twice {sys : SysHeaders} (hs : Hygienic sys) (st : State) :
    includeSystemH sys (includeSystemH sys st) = includeSystemH sys st :=
  includeSystemH_guarded sys _ (hs.guard_defined st)

theorem declaring_gateLines (a b : Bool) :
    declaring "srand48" ((if a then [] else [srand48Line]) ++ (if b then [] else [sleepLine]))
        = (if a then [] else [srand48Line])
    ∧ declaring "sleep" ((if a then [] else [srand48Line]) ++ (if b then [] else [sleepLine]))
        = (if b then [] else [sleepLine]) := by
  cases a <;> cases b <;> decide

theorem declaring_gateTexts (a b : Bool) :
    declaring "srand48" ((if a then [] else [srand48Text]) ++ (if b then [] else [sleepText]))
        = (if a then [] else [srand48Text])
    ∧ declaring "sleep" ((if a then [] else [srand48Text]) ++ (if b then [] else [sleepText]))
        = (if b then [] else [sleepText]) := by
  cases a <;> cases b <;> decide

theorem Hygienic.declaring_srand48 {sys : SysHeaders} (hs : Hygienic sys) (env : Env) :
    declaring "srand48" (emitted sys env) =
      if isDefined env "SYSTEM_H" || blocked env || isDefined env "HAVE_SRAND48" then []
      else [srand48Line] := by
  rw [hs.emitted_eq]
  by_cases h : (isDefined env "SYSTEM_H" || blocked env) = true
  · rw [if_pos h]; simp [h, declaring]
  · rw [if_neg h, gateLines, (declaring_gateLines _ _).1]
    simp only [Bool.not_eq_true] at h
    simp [h]

theorem Hygienic.text_srand48 {sys : SysHeaders} (hs : Hygienic sys)
    (hp : KeepsProto sys) (env : Env) (hplain : plainProto env = true) :
    declaring "srand48" (emittedText sys env) =
      if isDefined env "SYSTEM_H" || blocked env || isDefined env "HAVE_SRAND48" then []
      else [srand48Text] := by
  rw [hs.emittedText_eq hp env hplain]
  by_cases h : (isDefined env "SYSTEM_H" || blocked env) = true
  · rw [if_pos h]; simp [h, declaring]
  · rw [if_neg h, gateTexts, (declaring_gateTexts _ _).1]
    simp only [Bool.not_eq_true] at h
    simp [h]

theorem Hygienic.text_sleep {sys : SysHeaders} (hs : Hygienic sys)
    (hp : KeepsProto sys) (env : Env) (hplain : plainProto env = true) :
    declaring "sleep" (emittedText sys env) =
      if isDefined env "SYSTEM_H" || blocked env || isDefined env "HAVE_SLEEP" then []
      else [sleepText] := by
  rw [hs.emittedText_eq hp env hplain]
  by_cases h : (isDefined env "SYSTEM_H" || blocked env) = true
  · rw [if_pos h]; simp [h, declaring]
  · rw [if_neg h, gateTexts, (declaring_gateTexts _ _).2]
    simp only [Bool.not_eq_true] at h
    simp [h]

/-! ## The toolchain gate and the two availability tests -/

/-- C1: when `__cplusplus` or `__GO32__` is defined (or both), processing
system.h produces no text at all, so it emits no declaration: neither srand48
nor sleep is declared, whatever else is defined (in particular for every
combination of HAVE_SRAND48 and HAVE_SLEEP) and whatever the platform headers
would do. -/
theorem excluded_toolchain_emits_nothing (sys : SysHeaders) (env : Env)
    (h : isDefined env "__cplusplus" = true ∨ isDefined env "__GO32__" = true) :
    (includeSystemH sys ⟨env, []⟩).out = []
      ∧ emitted sys env = []
      ∧ declaring "srand48" (emitted sys env) = []
      ∧ declaring "sleep" (emitted sys env) = [] := by
  have hb : blocked env = true := by
    rcases h with h | h <;> simp [blocked, h]
  have hout : (includeSystemH sys ⟨env, []⟩).out = [] := by
    rw [out_includeSystemH]
    simp [hb]
  refine ⟨hout, ?_, ?_, ?_⟩ <;> simp [emitted, hout, declsOf, declaring]

/-- An instance of C1: both `__cplusplus` and `__GO32__` defined. -/
theorem excluded_toolchain_emits_nothing_witness :
    (isDefined [("__GO32__", [.other "1"]), ("__cplusplus", [.other "201103L"])]
          "__cplusplus" = true
        ∨ isDefined [("__GO32__", [.other "1"]), ("__cplusplus", [.other "201103L"])]
          "__GO32__" = true)
      ∧ emitted hostLibc [("__GO32__", [.other "1"]), ("__cplusplus", [.other "201103L"])]
          = [] :=
  ⟨Or.inl (by decide),
    (excluded_toolchain_emits_nothing hostLibc
      [("__GO32__", [.other "1"]), ("__cplusplus", [.other "201103L"])]
      (Or.inl (by decide))).2.1⟩

/-- C2, the claim as stated fails.  With neither `__cplusplus` nor `__GO32__`
defined, HAVE_SRAND48 not defined and SYSTEM_H not defined, but srand48
defined as `nh_srand48`, line 18 is let through and reads
`extern void nh_srand48(long int);`: no declaration of srand48 is emitted.
And in a translation unit in which SYSTEM_H is already defined nothing is
emitted at all. -/
theorem srand48_not_declared_counterexample :
    isDefined [("srand48", [.ident "nh_srand48"])] "__cplusplus" = false
      ∧ isDefined [("srand48", [.ident "nh_srand48"])] "__GO32__" = false
      ∧ isDefined [("srand48", [.ident "nh_srand48"])] "HAVE_SRAND48" = false
      ∧ isDefined [("srand48", [.ident "nh_srand48"])] "SYSTEM_H" = false
      ∧ emittedText hostLibc [("srand48", [.ident "nh_srand48"])] =
          [[.ident "extern", .ident "void", .ident "nh_srand48", .other "(", .ident "long",
              .ident "int", .other ")", .other ";"],
            [.ident "extern", .ident "unsigned", .ident "int", .ident "sleep", .other "(",
              .ident "unsigned", .ident "int", .other ")", .other ";"]]
      ∧ declaring "srand48" (emittedText hostLibc [("srand48", [.ident "nh_srand48"])]) = []
      ∧ isDefined [("SYSTEM_H", [])] "__cplusplus" = false
      ∧ isDefined [("SYSTEM_H", [])] "__GO32__" = false
      ∧ isDefined [("SYSTEM_H", [])] "HAVE_SRAND48" = false
      ∧ emittedText hostLibc [("SYSTEM_H", [])] = [] := by
  decide

/-- C2, amended: on a toolchain that defines neither `__cplusplus` nor
`__GO32__`, with HAVE_SRAND48 not defined, when system.h is processed for the
first time in the translation unit (SYSTEM_H not yet defined) and none of the
identifiers of its prototype lines (extern, void, srand48, long, int,
unsigned, sleep) is defined, beforehand or by the platform headers, exactly
one declaration of srand48 is emitted, and it reads
`extern void srand48(long int);`: one parameter of type `long int` and no
result.  The platform headers are assumed to leave the names that system.h
tests or defines alone.  Line 18 is the one line let through that mentions
srand48. -/
theorem srand48_declared_once (sys : SysHeaders) (env : Env) (hs : Hygienic sys)
    (hp : KeepsProto sys)
    (hfresh : isDefined env "SYSTEM_H" = false)
    (hcpp : isDefined env "__cplusplus" = false)
    (hgo : isDefined env "__GO32__" = false)
    (hflag : isDefined env "HAVE_SRAND48" = false)
    (hplain : plainProto env = true) :
    declaring "srand48" (emittedText sys env) =
        [[.ident "extern", .ident "void", .ident "srand48", .other "(", .ident "long",
          .ident "int", .other ")", .other ";"]]
      ∧ (declaring "srand48" (emittedText sys env)).length = 1
      ∧ declaring "srand48" (emitted sys env) = [srand48Line] := by
  have h := hs.text_srand48 hp env hplain
  have h2 := hs.declaring_srand48 env
  simp only [blocked, hfresh, hcpp, hgo, hflag] at h h2
  simp [h, h2, srand48Text]

/-- An instance of the amended C2: only HAVE_SLEEP defined. -/
theorem srand48_declared_once_witness :
    Hygienic hostLibc
      ∧ KeepsProto hostLibc
      ∧ isDefined [("HAVE_SLEEP", [.other "1"])] "SYSTEM_H" = false
      ∧ isDefined [("HAVE_SLEEP", [.other "1"])] "__cplusplus" = false
      ∧ isDefined [("HAVE_SLEEP", [.other "1"])] "__GO32__" = false
      ∧ isDefined [("HAVE_SLEEP", [.other "1"])] "HAVE_SRAND48" = false
      ∧ plainProto [("HAVE_SLEEP", [.other "1"])] = true
      ∧ declaring "srand48" (emittedText hostLibc [("HAVE_SLEEP", [.other "1"])]) =
          [[.ident "extern", .ident "void", .ident "srand48", .other "(", .ident "long",
            .ident "int", .other ")", .other ";"]] :=
  ⟨hostLibc_hygienic, hostLibc_keepsProto, by decide, by decide, by decide, by decide,
    by decide,
    (srand48_declared_once hostLibc [("HAVE_SLEEP", [.other "1"])] hostLibc_hygienic
      hostLibc_keepsProto (by decide) (by decide) (by decide) (by decide) (by decide)).1⟩

/-- C4, the claim as stated fails.  With neither `__cplusplus` nor `__GO32__`
defined, SYSTEM_H not defined and HAVE_SLEEP not defined, but sleep defined
as `nh_sleep` (and HAVE_SRAND48 defined), line 23 is let through and reads
`extern unsigned int nh_sleep(unsigned int);`: no declaration of sleep is
emitted.  And in a translation unit in which SYSTEM_H is already defined no
declaration of sleep is emitted although HAVE_SLEEP is not defined. -/
theorem sleep_not_declared_counterexample :
    isDefined [("sleep", [.ident "nh_sleep"]), ("HAVE_SRAND48", [.other "1"])]
        "__cplusplus" = false
      ∧ isDefined [("sleep", [.ident "nh_sleep"]), ("HAVE_SRAND48", [.other "1"])]
        "__GO32__" = false
      ∧ isDefined [("sleep", [.ident "nh_sleep"]), ("HAVE_SRAND48", [.other "1"])]
        "SYSTEM_H" = false
      ∧ isDefined [("sleep", [.ident "nh_sleep"]), ("HAVE_SRAND48", [.other "1"])]
        "HAVE_SLEEP" = false
      ∧ emittedText hostLibc
          [("sleep", [.ident "nh_sleep"]), ("HAVE_SRAND48", [.other "1"])] =
          [[.ident "extern", .ident "unsigned", .ident "int", .ident "nh_sleep", .other "(",
            .ident "unsigned", .ident "int", .other ")", .other ";"]]
      ∧ declaring "sleep" (emittedText hostLibc
          [("sleep", [.ident "nh_sleep"]), ("HAVE_SRAND48", [.other "1"])]) = []
      ∧ isDefined [("SYSTEM_H", [])] "__cplusplus" = false
      ∧ isDefined [("SYSTEM_H", [])] "__GO32__" = false
      ∧ isDefined [("SYSTEM_H", [])] "HAVE_SLEEP" = false
      ∧ declaring "sleep" (emittedText hostLibc [("SYSTEM_H", [])]) = [] := by
  decide

/-- C4, amended: on a toolchain that defines neither `__cplusplus` nor
`__GO32__`, at the first inclusion (SYSTEM_H not yet defined) and with none
of the identifiers of the prototype lines defined, beforehand or by the
platform headers (which are also assumed to leave the names that system.h
tests or defines alone), the declaration `extern unsigned int sleep(unsigned
int);` is emitted exactly once when HAVE_SLEEP is not defined and not at all
when it is defined.  Two such configurations `env` and `env2` that agree on
HAVE_SLEEP get the same sleep outcome whatever HAVE_SRAND48 is in each, and
two that agree on HAVE_SRAND48 get the same srand48 outcome whatever
HAVE_SLEEP is.  With both flags undefined both declarations are emitted; with
HAVE_SRAND48 defined and HAVE_SLEEP undefined only sleep is declared. -/
theorem sleep_gate_orthogonal (sys : SysHeaders) (env env2 : Env) (hs : Hygienic sys)
    (hp : KeepsProto sys)
    (hfresh : isDefined env "SYSTEM_H" = false)
    (hcpp : isDefined env "__cplusplus" = false)
    (hgo : isDefined env "__GO32__" = false)
    (hplain : plainProto env = true)
    (hfresh2 : isDefined env2 "SYSTEM_H" = false)
    (hcpp2 : isDefined env2 "__cplusplus" = false)
    (hgo2 : isDefined env2 "__GO32__" = false)
    (hplain2 : plainProto env2 = true) :
    declaring "sleep" (emittedText sys env)
        = (if isDefined env "HAVE_SLEEP" then []
            else [[.ident "extern", .ident "unsigned", .ident "int", .ident "sleep",
              .other "(", .ident "unsigned", .ident "int", .other ")", .other ";"]])
      ∧ (isDefined env2 "HAVE_SLEEP" = isDefined env "HAVE_SLEEP" →
          declaring "sleep" (emittedText sys env2) = declaring "sleep" (emittedText sys env))
      ∧ (isDefined env2 "HAVE_SRAND48" = isDefined env "HAVE_SRAND48" →
          declaring "srand48" (emittedText sys env2)
            = declaring "srand48" (emittedText sys env))
      ∧ (isDefined env "HAVE_SRAND48" = false → isDefined env "HAVE_SLEEP" = false →
          emittedText sys env = [srand48Text, sleepText])
      ∧ (isDefined env "HAVE_SRAND48" = true → isDefined env "HAVE_SLEEP" = false →
          emittedText sys env = [sleepText]) := by
  have h1 := hs.text_sleep hp env hplain
  have h2 := hs.text_sleep hp env2 hplain2
  have h3 := hs.text_srand48 hp env hplain
  have h4 := hs.text_srand48 hp env2 hplain2
  have h5 := hs.emittedText_eq hp env hplain
  simp only [blocked, hfresh, hcpp, hgo, hfresh2, hcpp2, hgo2, Bool.false_or] at h1 h2 h3 h4 h5
  refine ⟨h1, ?_, ?_, ?_, ?_⟩
  · intro h; rw [h1, h2, h]
  · intro h; rw [h3, h4, h]
  · intro ha hb; rw [h5, gateTexts, ha, hb]; rfl
  · intro ha hb; rw [h5, gateTexts, ha, hb]; rfl

/-- An instance of the amended C4: HAVE_SRAND48 defined in one configuration
and not in the other. -/
theorem sleep_gate_orthogonal_witness :
    Hygienic hostLibc
      ∧ KeepsProto hostLibc
      ∧ isDefined [("HAVE_SRAND48", [.other "1"])] "SYSTEM_H" = false
      ∧ isDefined [("HAVE_SRAND48", [.other "1"])] "__cplusplus" = false
      ∧ isDefined [("HAVE_SRAND48", [.other "1"])] "__GO32__" = false
      ∧ plainProto [("HAVE_SRAND48", [.other "1"])] = true
      ∧ isDefined [] "SYSTEM_H" = false
      ∧ isDefined [] "__cplusplus" = false
      ∧ isDefined [] "__GO32__" = false
      ∧ plainProto [] = true
      ∧ isDefined [] "HAVE_SLEEP" = isDefined [("HAVE_SRAND48", [.other "1"])] "HAVE_SLEEP"
      ∧ declaring "sleep" (emittedText hostLibc []) =
          declaring "sleep" (emittedText hostLibc [("HAVE_SRAND48", [.other "1"])])
      ∧ emittedText hostLibc [("HAVE_SRAND48", [.other "1"])] = [sleepText] :=
  ⟨hostLibc_hygienic, hostLibc_keepsProto, by decide, by decide, by decide, by decide,
    by decide, by decide, by decide, by decide, by decide,
    (sleep_gate_orthogonal hostLibc [("HAVE_SRAND48", [.other "1"])] [] hostLibc_hygienic
      hostLibc_keepsProto (by decide) (by decide) (by decide) (by decide) (by decide)
      (by decide) (by decide) (by decide)).2.1 (by decide),
    (sleep_gate_orthogonal hostLibc [("HAVE_SRAND48", [.other "1"])] [] hostLibc_hygienic
      hostLibc_keepsProto (by decide) (by decide) (by decide) (by decide) (by decide)
      (by decide) (by decide) (by decide)).2.2.2.2 (by decide) (by decide)⟩

/-! ## Repeated evaluation -/

theorem Hygienic.blocked_envAtTests {sys : SysHeaders} (hs : Hygienic sys) (env : Env) :
    blocked (envAtTests sys env) = blocked env := by
  unfold blocked
  rw [hs.isDefined_envAtTests env (show "__cplusplus" ∈ usedNames by decide) (by decide),
    hs.isDefined_envAtTests env (show "__GO32__" ∈ usedNames by decide) (by decide)]

theorem Hygienic.gate_again {sys : SysHeaders} (hs : Hygienic sys) (st : State) :
    declsOf (process sys gate ⟨(process sys gate st).env, []⟩).out
      = declsOf (process sys gate ⟨st.env, []⟩).out := by
  rw [out_gate, out_gate, env_gate]
  by_cases hb : blocked st.env = true
  · simp [hb]
  · simp only [Bool.not_eq_true] at hb
    simp only [hb, hs.blocked_envAtTests, List.nil_append, declsOf_bodyOut,
      Bool.false_eq_true, if_false]
    rw [hs.isDefined_envAtTests _ (show "HAVE_SRAND48" ∈ usedNames by decide) (by decide),
      hs.isDefined_envAtTests _ (show "HAVE_SLEEP" ∈ usedNames by decide) (by decide)]

theorem Hygienic.emitted_congr {sys : SysHeaders} (hs : Hygienic sys) (env₁ env₂ : Env)
    (h : ∀ n, n ∈ inputNames → isDefined env₁ n = isDefined env₂ n) :
    emitted sys env₁ = emitted sys env₂ := by
  rw [hs.emitted_eq, hs.emitted_eq]
  unfold blocked gateLines
  rw [h "SYSTEM_H" (by decide), h "__cplusplus" (by decide), h "__GO32__" (by decide),
    h "HAVE_SRAND48" (by decide), h "HAVE_SLEEP" (by decide)]

theorem Hygienic.emittedText_congr {sys : SysHeaders} (hs : Hygienic sys)
    (hp : KeepsProto sys) (env₁ env₂ : Env)
    (h : ∀ n, n ∈ inputNames → isDefined env₁ n = isDefined env₂ n)
    (h₁ : plainProto env₁ = true) (h₂ : plainProto env₂ = true) :
    emittedText sys env₁ = emittedText sys env₂ := by
  rw [hs.emittedText_eq hp env₁ h₁, hs.emittedText_eq hp env₂ h₂]
  unfold blocked gateTexts
  rw [h "SYSTEM_H" (by decide), h "__cplusplus" (by decide), h "__GO32__" (by decide),
    h "HAVE_SRAND48" (by decide), h "HAVE_SLEEP" (by decide)]

theorem Hygienic.second_emits_nothing {sys : SysHeaders} (hs : Hygienic sys) (st : State) :
    emitted sys (includeSystemH sys st).env = []
      ∧ emittedText sys (includeSystemH sys st).env = [] := by
  have h := hs.guard_defined st
  unfold emitted emittedText
  rw [out_includeSystemH]
  simp [h, declsOf, textOf]

/-- C5, the claim as stated fails.  Starting with nothing defined, the first
evaluation of system.h emits both declarations; a second evaluation in the
state the first one left behind, in which the toolchain names and the two
availability flags are defined exactly as before, emits nothing. -/
theorem second_evaluation_differs_counterexample :
    (∀ n, n ∈ configNames →
        isDefined (includeSystemH hostLibc ⟨[], []⟩).env n = isDefined [] n)
      ∧ emitted hostLibc [] = [srand48Line, sleepLine]
      ∧ emittedText hostLibc [] = [srand48Text, sleepText]
      ∧ emitted hostLibc (includeSystemH hostLibc ⟨[], []⟩).env = []
      ∧ emittedText hostLibc (includeSystemH hostLibc ⟨[], []⟩).env = [] := by
  decide

/-- C5, amended: which prototype lines system.h lets through is a function of
which of SYSTEM_H, `__cplusplus`, `__GO32__`, HAVE_SRAND48 and HAVE_SLEEP are
defined, and of nothing else: two evaluations that agree on these five (as in
two translation units of one build, where SYSTEM_H is undefined at the first
inclusion) let the same lines through, and emit the same declarations when no
identifier of the prototype lines is defined in either.  The state left
behind by an earlier evaluation matters only through SYSTEM_H: in that state
a further evaluation emits nothing and leaves the translation unit as it was,
while the gate proper (lines 9 to 26), evaluated again on the names it left
behind, lets the same lines through as the first time.  The platform headers
are assumed to leave the names that system.h tests or defines alone. -/
theorem gate_idempotent (sys : SysHeaders) (env₁ env₂ : Env) (st : State)
    (hs : Hygienic sys)
    (hsame : ∀ n, n ∈ inputNames → isDefined env₁ n = isDefined env₂ n) :
    emitted sys env₁ = emitted sys env₂
      ∧ (KeepsProto sys → plainProto env₁ = true → plainProto env₂ = true →
          emittedText sys env₁ = emittedText sys env₂)
      ∧ emitted sys (includeSystemH sys st).env = []
      ∧ emittedText sys (includeSystemH sys st).env = []
      ∧ includeSystemH sys (includeSystemH sys st) = includeSystemH sys st
      ∧ declsOf (process sys gate ⟨(process sys gate st).env, []⟩).out
          = declsOf (process sys gate ⟨st.env, []⟩).out :=
  ⟨hs.emitted_congr env₁ env₂ hsame,
    fun hp h₁ h₂ => hs.emittedText_congr hp env₁ env₂ hsame h₁ h₂,
    (hs.second_emits_nothing st).1, (hs.second_emits_nothing st).2,
    hs.include_twice st, hs.gate_again st⟩

/-- An instance of the amended C5: two tables that differ in a value and in
an unrelated name. -/
theorem gate_idempotent_witness :
    Hygienic hostLibc
      ∧ (∀ n, n ∈ inputNames →
          isDefined [("HAVE_SLEEP", [.other "1"])] n
            = isDefined [("HAVE_SLEEP", [.other "0"]), ("X", [])] n)
      ∧ emitted hostLibc [("HAVE_SLEEP", [.other "1"])]
          = emitted hostLibc [("HAVE_SLEEP", [.other "0"]), ("X", [])]
      ∧ emittedText hostLibc [("HAVE_SLEEP", [.other "1"])]
          = emittedText hostLibc [("HAVE_SLEEP", [.other "0"]), ("X", [])]
      ∧ includeSystemH hostLibc (includeSystemH hostLibc ⟨[], []⟩)
          = includeSystemH hostLibc ⟨[], []⟩ :=
  ⟨hostLibc_hygienic, by decide,
    (gate_idempotent hostLibc [("HAVE_SLEEP", [.other "1"])]
      [("HAVE_SLEEP", [.other "0"]), ("X", [])] ⟨[], []⟩ hostLibc_hygienic (by decide)).1,
    (gate_idempotent hostLibc [("HAVE_SLEEP", [.other "1"])]
      [("HAVE_SLEEP", [.other "0"]), ("X", [])] ⟨[], []⟩ hostLibc_hygienic (by decide)).2.1
      hostLibc_keepsProto (by decide) (by decide),
    (gate_idempotent hostLibc [("HAVE_SLEEP", [.other "1"])]
      [("HAVE_SLEEP", [.other "0"]), ("X", [])] ⟨[], []⟩ hostLibc_hygienic
      (by decide)).2.2.2.2.1⟩

/-! ## Effects on the translation unit -/

theorem lookup_includeSystemH (sys : SysHeaders) (st : State) (n : String)
    (h1 : n ≠ "SYSTEM_H") (h2 : n ≠ "E") (hk : Keeps sys n) :
    lookupDef (includeSystemH sys st).env n = lookupDef st.env n := by
  rw [env_includeSystemH]
  split
  · rfl
  · split
    · rw [lookupDef_define, if_neg h1]
    · unfold envAtTests
      rw [(hk _).2, (hk _).1, lookupDef_define, if_neg h2, lookupDef_define, if_neg h1]

/-- C7: system.h only reads its configuration names.  After it has been
processed, from any starting state, each of HAVE_SRAND48, HAVE_SLEEP,
`__cplusplus` and `__GO32__` is defined or undefined exactly as before, and
with the same replacement text.  The platform headers are assumed to leave
these names alone as well. -/
theorem configuration_names_untouched (sys : SysHeaders) (st : State) (hs : Hygienic sys) :
    lookupDef (includeSystemH sys st).env "HAVE_SRAND48" = lookupDef st.env "HAVE_SRAND48"
      ∧ lookupDef (includeSystemH sys st).env "HAVE_SLEEP" = lookupDef st.env "HAVE_SLEEP"
      ∧ lookupDef (includeSystemH sys st).env "__cplusplus" = lookupDef st.env "__cplusplus"
      ∧ lookupDef (includeSystemH sys st).env "__GO32__" = lookupDef st.env "__GO32__" :=
  ⟨lookup_includeSystemH sys st _ (by decide) (by decide) (hs.keeps (by decide)),
    lookup_includeSystemH sys st _ (by decide) (by decide) (hs.keeps (by decide)),
    lookup_includeSystemH sys st _ (by decide) (by decide) (hs.keeps (by decide)),
    lookup_includeSystemH sys st _ (by decide) (by decide) (hs.keeps (by decide))⟩

/-- An instance of C7: HAVE_SLEEP defined as 0. -/
theorem configuration_names_untouched_witness :
    Hygienic hostLibc
      ∧ lookupDef (includeSystemH hostLibc ⟨[("HAVE_SLEEP", [.other "0"])], []⟩).env
          "HAVE_SRAND48" = lookupDef [("HAVE_SLEEP", [.other "0"])] "HAVE_SRAND48"
      ∧ lookupDef (includeSystemH hostLibc ⟨[("HAVE_SLEEP", [.other "0"])], []⟩).env
          "HAVE_SLEEP" = lookupDef [("HAVE_SLEEP", [.other "0"])] "HAVE_SLEEP" :=
  ⟨hostLibc_hygienic,
    (configuration_names_untouched hostLibc ⟨[("HAVE_SLEEP", [.other "0"])], []⟩
      hostLibc_hygienic).1,
    (configuration_names_untouched hostLibc ⟨[("HAVE_SLEEP", [.other "0"])], []⟩
      hostLibc_hygienic).2.1⟩

/-! ## Definedness, not value -/

end SystemH
